import Mathlib

/-!
Shallow embedding of the instagram-cli core (message scheduler, chat-window
layout engine, command tokenizer, multi-line input box, optimistic-send
pipeline) together with proofs about the spec's claims.

Python strings are modelled as Lean `String`/`List Char`; machine time is
modelled at second precision via an explicit `DateTime` record; file writes
are modelled as an explicit log of the lists written to disk.
-/

namespace InstagramCli

/-- ASCII whitespace as recognised by Python's `str.split()` / `\s`:
space, tab, newline, carriage return, vertical tab, form feed. -/
def pyIsSpaceChar (c : Char) : Bool :=
  c = ' ' || c = '\t' || c = '\n' || c = '\r' || c = '\x0b' || c = '\x0c'

/-- Python `sep.join(parts)`. -/
def pyJoin (sep : String) : List String → String
  | [] => ""
  | [x] => x
  | x :: xs => x ++ sep ++ pyJoin sep xs

/-- Python `text.split()` (split on whitespace runs, dropping empty pieces),
mirrored on a character list. -/
def pyWordSplitAux : List Char → List Char → List (List Char)
  | cur, [] => if cur = [] then [] else [cur.reverse]
  | cur, c :: rest =>
    if pyIsSpaceChar c then
      if cur = [] then pyWordSplitAux [] rest
      else cur.reverse :: pyWordSplitAux [] rest
    else pyWordSplitAux (c :: cur) rest

/-- Python `text.split()` on a `String`. -/
def pyWordSplit (s : String) : List String :=
  (pyWordSplitAux [] s.data).map fun l => String.mk l

/-- A run of `n` spaces, Python `" " * n`. -/
def spaces (n : Nat) : String := String.mk (List.replicate n ' ')

/-! ## Date-time model (`datetime.strptime` with format `%Y-%m-%d %H:%M:%S`,
second-precision wall-clock comparison). -/

structure DateTime where
  year : Nat
  month : Nat
  day : Nat
  hour : Nat
  minute : Nat
  second : Nat
deriving DecidableEq, Repr

def isLeapYear (y : Nat) : Bool :=
  (y % 4 = 0 && y % 100 ≠ 0) || y % 400 = 0

def daysInMonth (y m : Nat) : Nat :=
  if m = 2 then (if isLeapYear y then 29 else 28)
  else if m = 4 || m = 6 || m = 9 || m = 11 then 30
  else 31

/-- Days since the civil epoch (per the standard civil-calendar formula),
valid for years ≥ 1; used only to take differences of wall-clock moments. -/
def daysFromCivil (y m d : Nat) : Nat :=
  let y' := if m ≤ 2 then y - 1 else y
  let era := y' / 400
  let yoe := y' % 400
  let mp := if m > 2 then m - 3 else m + 9
  let doy := (153 * mp + 2) / 5 + (d - 1)
  let doe := yoe * 365 + yoe / 4 - yoe / 100 + doy
  era * 146097 + doe

/-- Wall-clock moment of a `DateTime` in seconds (monotone encoding of
`datetime`; differences model `timedelta.total_seconds()`). -/
def toSec (dt : DateTime) : Nat :=
  daysFromCivil dt.year dt.month dt.day * 86400
    + dt.hour * 3600 + dt.minute * 60 + dt.second

/-- `(dt - now).total_seconds()` at second precision. -/
def delaySeconds (dt now : DateTime) : Int :=
  (toSec dt : Int) - (toSec now : Int)

def digitVal (c : Char) : Nat := c.toNat - 48

/-- CPython `_strptime` directive `%m`: regex `1[0-2]|0[1-9]|[1-9]`. -/
def parseMonth : List Char → Option (Nat × List Char)
  | [] => none
  | c1 :: rest =>
    if c1 = '1' then
      match rest with
      | c2 :: rest2 =>
        if c2 = '0' || c2 = '1' || c2 = '2' then some (10 + digitVal c2, rest2)
        else some (1, rest)
      | [] => some (1, [])
    else if c1 = '0' then
      match rest with
      | c2 :: rest2 => if '1' ≤ c2 && c2 ≤ '9' then some (digitVal c2, rest2) else none
      | [] => none
    else if '2' ≤ c1 && c1 ≤ '9' then some (digitVal c1, rest)
    else none

/-- CPython `_strptime` directive `%d`: regex `3[01]|[12]\d|0[1-9]|[1-9]`. -/
def parseDay : List Char → Option (Nat × List Char)
  | [] => none
  | c1 :: rest =>
    if c1 = '3' then
      match rest with
      | c2 :: rest2 =>
        if c2 = '0' || c2 = '1' then some (30 + digitVal c2, rest2)
        else some (3, rest)
      | [] => some (3, [])
    else if c1 = '1' || c1 = '2' then
      match rest with
      | c2 :: rest2 =>
        if c2.isDigit then some (digitVal c1 * 10 + digitVal c2, rest2)
        else some (digitVal c1, rest)
      | [] => some (digitVal c1, [])
    else if c1 = '0' then
      match rest with
      | c2 :: rest2 => if '1' ≤ c2 && c2 ≤ '9' then some (digitVal c2, rest2) else none
      | [] => none
    else if '4' ≤ c1 && c1 ≤ '9' then some (digitVal c1, rest)
    else none

/-- CPython `_strptime` directive `%H`: regex `2[0-3]|[0-1]\d|\d`. -/
def parseHour : List Char → Option (Nat × List Char)
  | [] => none
  | c1 :: rest =>
    if c1 = '2' then
      match rest with
      | c2 :: rest2 =>
        if '0' ≤ c2 && c2 ≤ '3' then some (20 + digitVal c2, rest2)
        else some (2, rest)
      | [] => some (2, [])
    else if c1 = '0' || c1 = '1' then
      match rest with
      | c2 :: rest2 =>
        if c2.isDigit then some (digitVal c1 * 10 + digitVal c2, rest2)
        else some (digitVal c1, rest)
      | [] => some (digitVal c1, [])
    else if c1.isDigit then some (digitVal c1, rest)
    else none

/-- CPython `_strptime` directive `%M`: regex `[0-5]\d|\d`. -/
def parseMinute : List Char → Option (Nat × List Char)
  | [] => none
  | c1 :: rest =>
    if '0' ≤ c1 && c1 ≤ '5' then
      match rest with
      | c2 :: rest2 =>
        if c2.isDigit then some (digitVal c1 * 10 + digitVal c2, rest2)
        else some (digitVal c1, rest)
      | [] => some (digitVal c1, [])
    else if c1.isDigit then some (digitVal c1, rest)
    else none

/-- CPython `_strptime` directive `%S`: regex `6[0-1]|[0-5]\d|\d`. -/
def parseSecond : List Char → Option (Nat × List Char)
  | [] => none
  | c1 :: rest =>
    if c1 = '6' then
      match rest with
      | c2 :: rest2 =>
        if c2 = '0' || c2 = '1' then some (60 + digitVal c2, rest2)
        else some (6, rest)
      | [] => some (6, [])
    else if '0' ≤ c1 && c1 ≤ '5' then
      match rest with
      | c2 :: rest2 =>
        if c2.isDigit then some (digitVal c1 * 10 + digitVal c2, rest2)
        else some (digitVal c1, rest)
      | [] => some (digitVal c1, [])
    else if c1.isDigit then some (digitVal c1, rest)
    else none

/-- `%Y`: exactly four digits. -/
def parseYear4 : List Char → Option (Nat × List Char)
  | a :: b :: c :: d :: rest =>
    if a.isDigit && b.isDigit && c.isDigit && d.isDigit then
      some (digitVal a * 1000 + digitVal b * 100 + digitVal c * 10 + digitVal d, rest)
    else none
  | _ => none

def expectChar (ch : Char) : List Char → Option (List Char)
  | [] => none
  | c :: rest => if c = ch then some rest else none

/-- A literal whitespace in a strptime format matches `\s+`. -/
def expectWhitespace : List Char → Option (List Char)
  | [] => none
  | c :: rest => if pyIsSpaceChar c then some (rest.dropWhile pyIsSpaceChar) else none

/-- `datetime.strptime(s, "%Y-%m-%d %H:%M:%S")` composed with the `datetime`
constructor's own validation (year ≥ 1, second ≤ 59, day within the month);
`none` models the `ValueError` that `add_task` catches. -/
def pyStrptime (s : String) : Option DateTime := do
  let (y, r1) ← parseYear4 s.data
  let r2 ← expectChar '-' r1
  let (mo, r3) ← parseMonth r2
  let r4 ← expectChar '-' r3
  let (d, r5) ← parseDay r4
  let r6 ← expectWhitespace r5
  let (h, r7) ← parseHour r6
  let r8 ← expectChar ':' r7
  let (mi, r9) ← parseMinute r8
  let r10 ← expectChar ':' r9
  let (se, r11) ← parseSecond r10
  if r11 = [] ∧ 1 ≤ y ∧ se ≤ 59 ∧ d ≤ daysInMonth y mo then
    some ⟨y, mo, d, h, mi, se⟩
  else none

/-! ## MessageScheduler (`instagram/api/scheduler.py`,
`instagram-py/instagram/api/scheduler.py`) -/

/-- One persisted record of the scheduler's JSON store.  `display_name` is
`none` when the key is absent from the JSON object. -/
structure Task where
  thread_id : String
  send_time : String
  message : String
  display_name : Option String
deriving DecidableEq, Repr

/-- The scheduler's persistent state: the in-memory `self.tasks` list plus a
log of every full-file write performed by `save_tasks` (each entry is the
list serialized to disk at that moment). -/
structure SchedulerState where
  tasks : List Task
  writes : List (List Task)
deriving DecidableEq, Repr

/-- `MessageScheduler.save_tasks`: rewrite the whole JSON file. -/
def save_tasks (st : SchedulerState) : SchedulerState :=
  { st with writes := st.writes ++ [st.tasks] }

/-- `MessageScheduler.add_task(thread_id, send_time, message, display_name)`
relative to the current wall clock `now` (`datetime.now().replace(microsecond=0)`).
Returns the result string together with the new scheduler state.  The
`scheduler.enter`/`start_scheduler` calls arm an in-memory timer only and
touch neither the task list nor the file, so they have no footprint here. -/
def add_task (now : DateTime) (st : SchedulerState)
    (thread_id send_time message : String) (display_name : Option String) :
    String × SchedulerState :=
  match pyStrptime send_time with
  | none => ("Error: Invalid datetime format. Use 'YYYY-MM-DD HH:MM:SS'.", st)
  | some dt =>
    let delay := delaySeconds dt now
    if delay ≤ 0 then
      ("Error: Cannot schedule a message in the past. **Make sure you use 24-hour format.**", st)
    else
      let task : Task :=
        { thread_id := thread_id, send_time := send_time, message := message
          -- `if display_name:` — the empty string is falsy in Python
          display_name := match display_name with
            | some dn => if dn = "" then none else some dn
            | none => none }
      let st1 := { st with tasks := st.tasks ++ [task] }
      ("Scheduled message for " ++ send_time, save_tasks st1)

/-- `MessageScheduler.remove_task`: `list.remove` deletes the first occurrence
equal to `task`, then the store is rewritten; absent tasks are ignored. -/
def remove_task (st : SchedulerState) (task : Task) : SchedulerState :=
  if task ∈ st.tasks then
    save_tasks { st with tasks := st.tasks.erase task }
  else st

/-- `MessageScheduler.cancel_latest_task` (instagram-py scheduler): removes
`self.tasks[-1]` — the most recently scheduled task, not an indexed one. -/
def cancel_latest_task (st : SchedulerState) : String × SchedulerState :=
  match st.tasks.getLast? with
  | some task => ("Cancelled task for " ++ task.send_time, remove_task st task)
  | none => ("Error: No tasks to cancel.", st)

/-- Observable actions of `execute_task`, each paired with the snapshot of the
persisted task list at the instant the action is invoked. -/
inductive SchedAction
  | send (thread_id message : String)
  | removeFromStore (task : Task)
deriving DecidableEq, Repr

/-- `MessageScheduler.execute_task(task)`: invokes
`client.insta_client.direct_answer(...)` first and only then calls
`remove_task`.  The trace records each action with the persisted list as it
stands when the action runs. -/
def execute_task (st : SchedulerState) (task : Task) :
    List (SchedAction × List Task) × SchedulerState :=
  let ev1 := (SchedAction.send task.thread_id task.message, st.tasks)
  let st' := remove_task st task
  let ev2 := (SchedAction.removeFromStore task, st'.tasks)
  ([ev1, ev2], st')

/-! ## Chat window layout engine
(`instagram-py/instagram/chat_ui/components/chat_window.py`,
`ChatWindow._build_message_lines`) -/

inductive ChatMode
  | CHAT | COMMAND | COMMAND_RESULT | REPLY | UNSEND
deriving DecidableEq, Repr

/-- Sender/content pair (`msg.message` and `msg.reply_to`). -/
structure Msg where
  sender : String
  content : String
deriving DecidableEq, Repr

/-- One entry of the chat window's message list, with the transient
optimistic-send flags (`getattr(msg, "pending"/"failed", False)`). -/
structure MessageInfo where
  message : Msg
  reply_to : Option Msg
  reactions : List (String × Nat)
  pending : Bool
  failed : Bool
deriving DecidableEq, Repr

/-- The `LineInfo` named tuple of `chat_ui/utils/types.py`. -/
structure LineInfo where
  message_idx : Nat
  text : String
  is_selected : Bool
  color_idx : Nat
  sender_width : Nat
  sender_text : String
  is_dimmed : Bool
deriving DecidableEq, Repr

/-- The ambient inputs `_build_message_lines` reads besides the message list:
window width, the selection cursor and mode (for `is_selected`), the two
config options, and the process-wide `hash` function on sender names. -/
structure LayoutCtx where
  width : Nat
  selection : Nat
  mode : ChatMode
  colors : Bool
  compact : Bool
  hashF : String → Nat

/-- `flush_line`: emit the buffered words as one line unless the buffer is
empty; the Boolean records the value of `first_line` at flush time. -/
def flushOut (buffer : List String) (first : Bool) : List (List String × Bool) :=
  if buffer = [] then [] else [(buffer, first)]

/-- The greedy word-fill loop of `_build_message_lines` over the remaining
words, carrying `line_buffer`, `current_width` and `first_line`. -/
def wrap_words (cw : Int) (buffer : List String) (curWidth : Nat) (first : Bool) :
    List String → List (List String × Bool)
  | [] => flushOut buffer first
  | w :: ws =>
    let space_needed : Nat := if buffer = [] then 0 else 1
    if (curWidth : Int) + w.length + space_needed ≤ cw then
      wrap_words cw (buffer ++ [w]) (curWidth + w.length + space_needed) first ws
    else
      flushOut buffer first ++ wrap_words cw [w] w.length false ws

/-- Word-wrap a message body to `content_width` columns: the emitted lines as
word buffers, each tagged with whether it was flushed as the first line. -/
def wrap_body (cw : Int) (words : List String) : List (List String × Bool) :=
  wrap_words cw [] 0 true words

/-- The `LineInfo` records emitted for a message's wrapped body. -/
def message_body_lines (msg_idx : Nat) (is_selected : Bool) (color_idx : Nat)
    (sender_text : String) (cw : Int) (words : List String) : List LineInfo :=
  (wrap_body cw words).map fun p =>
    { message_idx := msg_idx
      text := pyJoin " " p.1
      is_selected := is_selected
      color_idx := color_idx
      sender_width := sender_text.length
      sender_text := if p.2 then sender_text else spaces sender_text.length
      is_dimmed := false }

/-- Python `s[:k]` for a possibly negative `k`. -/
def pyTake (s : String) (k : Int) : String :=
  if k ≥ 0 then String.mk (s.data.take k.toNat)
  else String.mk (s.data.take (s.length - (-k).toNat))

/-- `reply_content.replace("\n", " ")`. -/
def replaceNewlines (s : String) : String :=
  String.mk (s.data.map fun c => if c = '\n' then ' ' else c)

/-- The dimmed reply-annotation line, if the message has a `reply_to`. -/
def message_reply_lines (msg_idx width sender_width : Nat) :
    Option Msg → List LineInfo
  | none => []
  | some reply =>
    let reply_sender := reply.sender ++ ": "
    let reply_indent := spaces sender_width ++ "| "
    let max_reply_content : Int :=
      (width : Int) - reply_sender.length - reply_indent.length - 1
    let rc : String := replaceNewlines reply.content
    let reply_content :=
      if (rc.length : Int) > max_reply_content then
        pyTake rc (max_reply_content - 3) ++ "..."
      else rc
    [{ message_idx := msg_idx, text := reply_indent ++ reply_sender ++ reply_content
       is_selected := false, color_idx := 0, sender_width := 0, sender_text := ""
       is_dimmed := true }]

/-- The dimmed reaction-annotation line, if the reaction dict is non-empty
(insertion-ordered, mirroring Python dict iteration). -/
def message_reaction_lines (msg_idx sender_width : Nat)
    (reactions : List (String × Nat)) : List LineInfo :=
  if reactions = [] then []
  else
    let entries := reactions.map fun p => p.1 ++ "x" ++ toString p.2
    [{ message_idx := msg_idx, text := spaces sender_width ++ pyJoin " " entries
       is_selected := false, color_idx := 0, sender_width := 0, sender_text := ""
       is_dimmed := true }]

/-- `content_text` after the pending/failed status suffixes. -/
def effective_content (m : MessageInfo) : String :=
  let t0 := m.message.content
  let t1 := if m.pending then t0 ++ " (sending...)" else t0
  if m.failed then t1 ++ " [FAILED :(  ]" else t1

/-- All `LineInfo` records contributed by one message at index `msg_idx`:
wrapped body, reply annotation, reaction annotation and (unless the layout is
compact) a trailing blank spacer line. -/
def message_lines (ctx : LayoutCtx) (msg_idx : Nat) (m : MessageInfo) : List LineInfo :=
  let sender_text := m.message.sender ++ ": "
  let sender_width := sender_text.length
  let content_width : Int := (ctx.width : Int) - sender_width - 1
  let is_selected :=
    (msg_idx == ctx.selection) &&
      (ctx.mode == ChatMode.REPLY || ctx.mode == ChatMode.UNSEND)
  let color_idx := if ctx.colors then ctx.hashF m.message.sender % 3 + 4 else 0
  let words := pyWordSplit (effective_content m)
  message_body_lines msg_idx is_selected color_idx sender_text content_width words
    ++ message_reply_lines msg_idx ctx.width sender_width m.reply_to
    ++ message_reaction_lines msg_idx sender_width m.reactions
    ++ (if ctx.compact then []
        else [{ message_idx := msg_idx, text := "", is_selected := false
                color_idx := 0, sender_width := 0, sender_text := ""
                is_dimmed := false }])

/-- `ChatWindow._build_message_lines`: the full `DisplayLine` sequence, oldest
first. -/
def build_message_lines (ctx : LayoutCtx) (messages : List MessageInfo) :
    List LineInfo :=
  (messages.enum.map fun p => message_lines ctx p.1 p.2).flatten

/-! ## Multi-line input box
(`instagram-py/instagram/chat_ui/components/input_box.py`) -/

/-- The decoded keys `InputBox.handle_key` dispatches on.  `intKey`/`strKey`
stand for the fall-through insertion branch (wide ints resp. strings). -/
inductive IBKey
  | enter | backspace | delete | left | right | up | down | home | endKey
  | intKey (n : Nat)
  | strKey (s : List Nat)
deriving DecidableEq, Repr

/-- Editor state.  The buffer is a list of Unicode code points (Python chars);
`cursor_pos` is an `Option` because the source can store the `None` returned
by `_get_position_from_rowcol` into `self.cursor_pos`. -/
structure InputBox where
  buffer : List Nat
  cursor_pos : Option Nat
  scroll_offset : Nat
  width : Nat
  max_height : Nat
deriving DecidableEq, Repr

/-- Python `list.insert(i, x)` (clamps `i` to the length). -/
def pyInsert {α : Type} (l : List α) (i : Nat) (x : α) : List α :=
  l.take i ++ x :: l.drop i

/-- The character loop of `InputBox._wrap_text`, carrying the accumulated
lines and the current line with its width. -/
def wrap_text_go (vw : Int) (lines : List (List Nat)) (cur : List Nat) (cw : Nat) :
    List Nat → List (List Nat)
  | [] => if cur = [] then lines else lines ++ [cur]
  | c :: rest =>
    if c = 10 then wrap_text_go vw (lines ++ [cur]) [] 0 rest
    else if (cw : Int) ≥ vw then wrap_text_go vw (lines ++ [cur]) [c] 1 rest
    else wrap_text_go vw lines (cur ++ [c]) (cw + 1) rest

/-- `InputBox._wrap_text`: wrap to `width - 2` columns, breaking at newlines. -/
def wrap_text (width : Nat) (text : List Nat) : List (List Nat) :=
  wrap_text_go ((width : Int) - 2) [] [] 0 text

/-- `InputBox._calculate_cursor_position`.  A `None` cursor reproduces the
Python slice `buffer[:None]`, i.e. the whole buffer. -/
def calculate_cursor_position (ib : InputBox) : Nat × Nat :=
  let text_before := match ib.cursor_pos with
    | some c => ib.buffer.take c
    | none => ib.buffer
  let lines := wrap_text ib.width text_before
  match lines.getLast? with
  | none => (0, 0)
  | some last => (lines.length - 1, last.length)

/-- `InputBox._get_position_from_rowcol` (callers only pass `row ≥ 0`). -/
def get_position_from_rowcol (ib : InputBox) (row col : Nat) : Option Nat :=
  let lines := wrap_text ib.width ib.buffer
  if row ≥ lines.length then none
  else
    let pos := (((lines.take row).map fun l => l.length + 1)).sum
    some (min (pos + col) ib.buffer.length)

/-- `InputBox._adjust_scroll`. -/
def adjust_scroll (ib : InputBox) : InputBox :=
  let row := (calculate_cursor_position ib).1
  if row < ib.scroll_offset then { ib with scroll_offset := row }
  else if row ≥ ib.scroll_offset + ib.max_height then
    { ib with scroll_offset := row - ib.max_height + 1 }
  else ib

/-- Python `str.strip()` relative to the runtime's whitespace table. -/
def pyStrip (isspace : Nat → Bool) (l : List Nat) : List Nat :=
  ((l.dropWhile isspace).reverse.dropWhile isspace).reverse

/-- The per-character insertion loop of the string fall-through branch of
`handle_key` (each printable char is inserted at the cursor). -/
def str_insert (isprintable : Nat → Bool) : InputBox → List Nat → InputBox
  | ib, [] => ib
  | ib, ch :: rest =>
    if isprintable ch then
      match ib.cursor_pos with
      | some c =>
        str_insert isprintable
          (adjust_scroll { ib with buffer := pyInsert ib.buffer c ch
                                   cursor_pos := some (c + 1) }) rest
      | none => str_insert isprintable ib rest
    else str_insert isprintable ib rest

/-- `InputBox.handle_key`, parameterized by the Python runtime's `str.isspace`
and `str.isprintable` tables (on code points).  Returns the new state and the
optional submitted string.  A state whose cursor is already `None` would raise
`TypeError` in Python; such states are unreachable from valid ones within one
step and are returned unchanged here. -/
def handle_key (isspace isprintable : Nat → Bool) (ib : InputBox) (key : IBKey) :
    InputBox × Option (List Nat) :=
  match ib.cursor_pos with
  | none => (ib, none)
  | some c =>
    match key with
    | .enter =>
      if c < ib.buffer.length then
        (adjust_scroll { ib with buffer := pyInsert ib.buffer c 10
                                 cursor_pos := some (c + 1) }, none)
      else
        let res := ib.buffer
        if pyStrip isspace res = [] then (ib, none)
        else (ib, some res)
    | .backspace =>
      if c > 0 then
        (adjust_scroll { ib with buffer := ib.buffer.eraseIdx (c - 1)
                                 cursor_pos := some (c - 1) }, none)
      else (ib, none)
    | .delete =>
      if c < ib.buffer.length then
        (adjust_scroll { ib with buffer := ib.buffer.eraseIdx c }, none)
      else (ib, none)
    | .left =>
      if c > 0 then (adjust_scroll { ib with cursor_pos := some (c - 1) }, none)
      else (ib, none)
    | .right =>
      if c < ib.buffer.length then
        (adjust_scroll { ib with cursor_pos := some (c + 1) }, none)
      else (ib, none)
    | .up =>
      let rc := calculate_cursor_position ib
      if rc.1 > 0 then
        -- the source assigns the lookup result with no `None` check
        (adjust_scroll { ib with cursor_pos := get_position_from_rowcol ib (rc.1 - 1) rc.2 },
         none)
      else (ib, none)
    | .down =>
      let rc := calculate_cursor_position ib
      match get_position_from_rowcol ib (rc.1 + 1) rc.2 with
      | some p => (adjust_scroll { ib with cursor_pos := some p }, none)
      | none => (ib, none)
    | .home =>
      let rc := calculate_cursor_position ib
      -- the source assigns the lookup result with no `None` check
      (adjust_scroll { ib with cursor_pos := get_position_from_rowcol ib rc.1 0 }, none)
    | .endKey =>
      let rc := calculate_cursor_position ib
      match get_position_from_rowcol ib (rc.1 + 1) 0 with
      | none => (adjust_scroll { ib with cursor_pos := some ib.buffer.length }, none)
      | some nrs => (adjust_scroll { ib with cursor_pos := some (nrs - 1) }, none)
    | .intKey n =>
      -- `chr(key)` raises ValueError above 0x10FFFF (caught and ignored);
      -- control characters 0..31 and 127 are filtered out
      if n ≥ 1114112 then (ib, none)
      else if n ≤ 31 || n = 127 then (ib, none)
      else
        (adjust_scroll { ib with buffer := pyInsert ib.buffer c n
                                 cursor_pos := some (c + 1) }, none)
    | .strKey s => (str_insert isprintable ib s, none)

/-- `InputBox.clear` (the curses redraw has no effect on the modelled state). -/
def clear (ib : InputBox) : InputBox :=
  { ib with buffer := [], cursor_pos := some 0, scroll_offset := 0 }

/-! ## Command tokenizer (`instagram/chat_ui/utils/commands.py`,
`CommandRegistry.parse_command`).

`re.findall` over the pattern matching, in precedence order, a double-quoted
span, a `$`-delimited span, or a maximal run of non-whitespace characters. -/

/-- Regex scan worker.  Every recursive call consumes at least one character,
so the character count of the input is enough fuel; the fuel only makes the
recursion structural and never runs out (`tok_go_fuel_irrel`). -/
def tok_go : Nat → List Char → List (List Char)
  | 0, _ => []
  | _, [] => []
  | fuel + 1, c :: rest =>
    if pyIsSpaceChar c then tok_go fuel rest
    else if c = '"' then
      let span := rest.takeWhile (fun x => x ≠ '"')
      let after := rest.dropWhile (fun x => x ≠ '"')
      if after = [] ∨ span = [] then
        (c :: rest.takeWhile (fun x => ¬ pyIsSpaceChar x)) ::
          tok_go fuel (rest.dropWhile (fun x => ¬ pyIsSpaceChar x))
      else span :: tok_go fuel (after.drop 1)
    else if c = '$' then
      let span := rest.takeWhile (fun x => x ≠ '$')
      let after := rest.dropWhile (fun x => x ≠ '$')
      if after = [] ∨ span = [] then
        (c :: rest.takeWhile (fun x => ¬ pyIsSpaceChar x)) ::
          tok_go fuel (rest.dropWhile (fun x => ¬ pyIsSpaceChar x))
      else span :: tok_go fuel (after.drop 1)
    else
      (c :: rest.takeWhile (fun x => ¬ pyIsSpaceChar x)) ::
        tok_go fuel (rest.dropWhile (fun x => ¬ pyIsSpaceChar x))

/-- Scan for successive matches of `"([^"]+)"|\$([^$]+)\$|(\S+)`. -/
def tokenize_command (l : List Char) : List (List Char) :=
  tok_go l.length l

/-- Result of `parse_command`: an error string or the command name with its
argument tokens. -/
inductive ParseResult
  | error (msg : String)
  | parsed (command : String) (args : List String)
deriving DecidableEq, Repr

/-- `CommandRegistry.parse_command` (the `:` prefix is already stripped). -/
def parse_command (command_str : String) : ParseResult :=
  let tokens := (tokenize_command command_str.data).map fun l => String.mk l
  match tokens with
  | [] => ParseResult.error "Error: Empty command string."
  | cmd :: args => ParseResult.parsed cmd args

/-! ## Optimistic send pipeline
(`instagram/chat_ui/interface/chat_interface.py`,
`ChatInterface._handle_chat_message`, and
`DirectChat._replace_emojis` of `instagram/api/direct_messages.py`). -/

/-- A message entry of the chat window list as the optimistic pipeline sees
it: identity, sender label, content, and the transient flags. -/
structure ChatMsg where
  id : String
  sender : String
  content : String
  pending : Bool
  failed : Bool
deriving DecidableEq, Repr

/-- Environment supplied by the `emoji` library and `fuzzy_match`: the set of
emoji alias names, the `emojize` substitution, and the fuzzy matcher (with its
0.8 cutoff baked in). -/
structure EmojiEnv where
  emoji_names : List String
  emojize : String → String
  fuzzy_match : String → List String → List String

/-- Python `word.startswith(":")`. -/
def startsWithColon (s : String) : Bool :=
  match s.data with
  | [] => false
  | c :: _ => c = ':'

/-- Python `word.endswith(":")`. -/
def endsWithColon (s : String) : Bool :=
  match s.data.getLast? with
  | none => false
  | some c => c = ':'

/-- `DirectChat._replace_emojis`: split into words, replace `:name:`-shaped
words by their fuzzy-matched emoji, and re-join with single spaces. -/
def replace_emojis (env : EmojiEnv) (text : String) : String :=
  let words := pyWordSplit text
  if text ∈ env.emoji_names then env.emojize text
  else
    pyJoin " " (words.map fun word =>
      if startsWithColon word && endsWithColon word then
        match env.fuzzy_match word env.emoji_names with
        | m :: _ => env.emojize m
        | [] => word
      else word)

/-- The shared UI state the send pipeline mutates under `refresh_lock`: the
chat window's message list and the `pending_msgs` dict (insertion-ordered). -/
structure ChatUIState where
  messages : List ChatMsg
  pending_msgs : List (String × ChatMsg)
deriving DecidableEq, Repr

/-- Python `d[k] = v` on an insertion-ordered dict. -/
def pyDictSet (d : List (String × ChatMsg)) (k : String) (v : ChatMsg) :
    List (String × ChatMsg) :=
  if d.any fun p => p.1 = k then d.map fun p => if p.1 = k then (k, v) else p
  else d ++ [(k, v)]

/-- Python `if k in d: del d[k]`. -/
def pyDictDel (d : List (String × ChatMsg)) (k : String) :
    List (String × ChatMsg) :=
  d.filter fun p => p.1 ≠ k

/-- The synchronous optimistic step of `_handle_chat_message`: build the
temporary pending message (with the emoji-processed text), append it to the
message list and record it in `pending_msgs`. -/
def handle_chat_message_optimistic (env : EmojiEnv) (st : ChatUIState)
    (tmp_id text : String) : ChatUIState :=
  let processed := replace_emojis env text
  let pending_msg : ChatMsg :=
    { id := tmp_id, sender := "You", content := processed
      pending := true, failed := false }
  { messages := st.messages ++ [pending_msg]
    pending_msgs := pyDictSet st.pending_msgs tmp_id pending_msg }

/-- The failure branch of `_send_in_background`: pop the first message whose
id is the temporary id (the source's `idx < len` guard always holds for an
index produced by `enumerate`) and drop the id from `pending_msgs`. -/
def send_failure_cleanup (st : ChatUIState) (tmp_id : String) : ChatUIState :=
  let idx := st.messages.findIdx? fun m => m.id = tmp_id
  let msgs := match idx with
    | some i => st.messages.eraseIdx i
    | none => st.messages
  { messages := msgs, pending_msgs := pyDictDel st.pending_msgs tmp_id }

/-! ## Helper lemmas -/

theorem length_spaces (n : Nat) : (spaces n).length = n := by
  simp [spaces, String.length]

theorem pyJoin_append (sep : String) (l m : List String) (hl : l ≠ []) (hm : m ≠ []) :
    pyJoin sep (l ++ m) = pyJoin sep l ++ sep ++ pyJoin sep m := by
  induction l with
  | nil => exact absurd rfl hl
  | cons x xs ih =>
    cases xs with
    | nil =>
      cases m with
      | nil => exact absurd rfl hm
      | cons y ys => simp [pyJoin]
    | cons y ys =>
      have h := ih (by simp)
      simp only [List.cons_append] at h ⊢
      simp [pyJoin, h, String.append_assoc]

theorem flatten_ne_nil (L : List (List String)) (hL : L ≠ [])
    (hmem : ∀ l ∈ L, l ≠ []) : L.flatten ≠ [] := by
  cases L with
  | nil => exact absurd rfl hL
  | cons l L' =>
    have hl : l ≠ [] := hmem l (by simp)
    simp only [List.flatten_cons]
    intro h
    exact hl (List.append_eq_nil.mp h).1

theorem pyJoin_map_flatten (sep : String) (L : List (List String))
    (hmem : ∀ l ∈ L, l ≠ []) :
    pyJoin sep (L.map (pyJoin sep)) = pyJoin sep L.flatten := by
  induction L with
  | nil => rfl
  | cons l L' ih =>
    cases L' with
    | nil => simp [pyJoin]
    | cons l2 L'' =>
      have hl : l ≠ [] := hmem l (by simp)
      have hflat : (l2 :: L'').flatten ≠ [] :=
        flatten_ne_nil _ (by simp) fun x hx => hmem x (by simp [hx])
      have ihh := ih fun x hx => hmem x (by simp [hx])
      calc pyJoin sep ((l :: l2 :: L'').map (pyJoin sep))
          = pyJoin sep l ++ sep ++ pyJoin sep ((l2 :: L'').map (pyJoin sep)) := by
            simp [pyJoin]
        _ = pyJoin sep l ++ sep ++ pyJoin sep (l2 :: L'').flatten := by rw [ihh]
        _ = pyJoin sep (l ++ (l2 :: L'').flatten) := by
            rw [pyJoin_append sep l _ hl hflat]
        _ = pyJoin sep ((l :: l2 :: L'').flatten) := by simp

theorem wrap_words_fst_flatten (cw : Int) (ws : List String) :
    ∀ (buffer : List String) (curW : Nat) (first : Bool),
      ((wrap_words cw buffer curW first ws).map Prod.fst).flatten = buffer ++ ws := by
  induction ws with
  | nil =>
    intro buffer curW first
    by_cases h : buffer = [] <;> simp [wrap_words, flushOut, h]
  | cons w ws ih =>
    intro buffer curW first
    by_cases hb : buffer = [] <;> simp only [wrap_words, hb, reduceIte] <;>
      split <;> simp [flushOut, hb, ih]

theorem wrap_words_fst_ne_nil (cw : Int) (ws : List String) :
    ∀ (buffer : List String) (curW : Nat) (first : Bool),
      ∀ p ∈ wrap_words cw buffer curW first ws, p.1 ≠ [] := by
  induction ws with
  | nil =>
    intro buffer curW first p hp
    by_cases h : buffer = [] <;> simp [wrap_words, flushOut, h] at hp
    subst hp
    simpa using h
  | cons w ws ih =>
    intro buffer curW first p hp
    by_cases hb : buffer = [] <;>
      simp only [wrap_words, hb, reduceIte] at hp
    · split at hp
      · exact ih _ _ _ p hp
      · simp only [flushOut, reduceIte, List.nil_append] at hp
        exact ih _ _ _ p hp
    · split at hp
      · exact ih _ _ _ p hp
      · simp only [flushOut, hb, reduceIte, if_neg hb] at hp
        rcases List.mem_append.mp hp with hp | hp
        · simp only [List.mem_singleton] at hp
          simpa [hp] using hb
        · exact ih _ _ _ p hp

theorem wrap_words_all_false (cw : Int) (ws : List String) :
    ∀ (buffer : List String) (curW : Nat),
      ∀ p ∈ wrap_words cw buffer curW false ws, p.2 = false := by
  induction ws with
  | nil =>
    intro buffer curW p hp
    by_cases h : buffer = [] <;> simp [wrap_words, flushOut, h] at hp
    subst hp
    rfl
  | cons w ws ih =>
    intro buffer curW p hp
    by_cases hb : buffer = [] <;>
      simp only [wrap_words, hb, reduceIte] at hp
    · split at hp
      · exact ih _ _ p hp
      · simp only [flushOut, reduceIte, List.nil_append] at hp
        exact ih _ _ p hp
    · split at hp
      · exact ih _ _ p hp
      · simp only [flushOut, hb, reduceIte, if_neg hb] at hp
        rcases List.mem_append.mp hp with hp | hp
        · simp only [List.mem_singleton] at hp
          simp [hp]
        · exact ih _ _ p hp

theorem wrap_words_first_true (cw : Int) (ws : List String) :
    ∀ (buffer : List String) (curW : Nat), buffer ≠ [] →
      ∃ c0 rest, wrap_words cw buffer curW true ws = (c0, true) :: rest ∧
        ∀ p ∈ rest, p.2 = false := by
  induction ws with
  | nil =>
    intro buffer curW hb
    exact ⟨buffer, [], by simp [wrap_words, flushOut, hb], by simp⟩
  | cons w ws ih =>
    intro buffer curW hb
    simp only [wrap_words, hb, reduceIte]
    split
    · exact ih _ _ (by simp)
    · refine ⟨buffer, wrap_words cw [w] w.length false ws,
        by simp [flushOut, hb], ?_⟩
      exact wrap_words_all_false cw ws [w] w.length

theorem pyStrip_eq_nil_iff (isspace : Nat → Bool) (l : List Nat) :
    pyStrip isspace l = [] ↔ ∀ c ∈ l, isspace c := by
  unfold pyStrip
  constructor
  · intro h c hc
    have h2 : (l.dropWhile isspace).reverse.dropWhile isspace = [] := by
      simpa using congrArg List.reverse h
    have hall : ∀ x ∈ l.dropWhile isspace, isspace x := by
      intro x hx
      exact List.dropWhile_eq_nil_iff.mp h2 x (List.mem_reverse.mpr hx)
    have := List.takeWhile_append_dropWhile isspace l
    rcases List.mem_append.mp (by rw [this]; exact hc) with hx | hx
    · exact List.mem_takeWhile_imp hx
    · exact hall c hx
  · intro h
    have h1 : l.dropWhile isspace = [] := List.dropWhile_eq_nil_iff.mpr h
    simp [h1]

theorem adjust_scroll_buffer (ib : InputBox) :
    (adjust_scroll ib).buffer = ib.buffer := by
  unfold adjust_scroll
  dsimp only
  split
  · rfl
  split <;> rfl

theorem adjust_scroll_cursor (ib : InputBox) :
    (adjust_scroll ib).cursor_pos = ib.cursor_pos := by
  unfold adjust_scroll
  dsimp only
  split
  · rfl
  split <;> rfl

theorem findIdx_append_singleton {α : Type} (p : α → Bool) (l : List α) (a : α)
    (hl : ∀ x ∈ l, p x = false) (ha : p a = true) :
    (l ++ [a]).findIdx? p = some l.length := by
  induction l with
  | nil => simp [List.findIdx?, ha]
  | cons x xs ih =>
    have hx : p x = false := hl x (by simp)
    have ihh := ih fun y hy => hl y (by simp [hy])
    simp [List.findIdx?_cons, hx, ihh]

theorem eraseIdx_append_length {α : Type} (l : List α) (a : α) :
    (l ++ [a]).eraseIdx l.length = l := by
  induction l with
  | nil => rfl
  | cons x xs ih => simp [List.eraseIdx, ih]

theorem takeWhile_append_stop {α : Type} (p : α → Bool) (b : α) (t : List α)
    (l : List α) (hl : ∀ a ∈ l, p a = true) (hb : p b = false) :
    (l ++ b :: t).takeWhile p = l := by
  induction l with
  | nil => simp [List.takeWhile_cons, hb]
  | cons x xs ih =>
    have hx : p x = true := hl x (by simp)
    have ihh := ih fun y hy => hl y (by simp [hy])
    simp [List.takeWhile_cons, hx, ihh]

theorem dropWhile_append_stop {α : Type} (p : α → Bool) (b : α) (t : List α)
    (l : List α) (hl : ∀ a ∈ l, p a = true) (hb : p b = false) :
    (l ++ b :: t).dropWhile p = b :: t := by
  induction l with
  | nil => simp [List.dropWhile_cons, hb]
  | cons x xs ih =>
    have hx : p x = true := hl x (by simp)
    have ihh := ih fun y hy => hl y (by simp [hy])
    simp [List.dropWhile_cons, hx, ihh]

theorem tok_go_fuel_irrel (f1 : Nat) :
    ∀ (l : List Char) (f2 : Nat), l.length ≤ f1 → l.length ≤ f2 →
      tok_go f1 l = tok_go f2 l := by
  induction f1 with
  | zero =>
    intro l f2 h1 _
    have : l = [] := List.eq_nil_of_length_eq_zero (Nat.le_zero.mp h1)
    subst this
    cases f2 <;> rfl
  | succ f ih =>
    intro l f2 h1 h2
    cases l with
    | nil => cases f2 <;> rfl
    | cons c rest =>
      cases f2 with
      | zero => simp at h2
      | succ g =>
        have hr : rest.length ≤ f := by simpa using h1
        have hg : rest.length ≤ g := by simpa using h2
        have hdq : (rest.dropWhile fun x => decide (x ≠ '"')).length ≤ rest.length :=
          (List.dropWhile_suffix _).length_le
        have hdd : (rest.dropWhile fun x => decide (x ≠ '$')).length ≤ rest.length :=
          (List.dropWhile_suffix _).length_le
        have hds : (rest.dropWhile fun x => ¬ pyIsSpaceChar x).length ≤ rest.length :=
          (List.dropWhile_suffix _).length_le
        simp only [tok_go]
        by_cases hs : pyIsSpaceChar c
        · simp only [hs, if_true]
          exact ih rest g hr hg
        · simp only [hs, Bool.false_eq_true, if_false]
          by_cases hqc : c = '"'
          · simp only [hqc, if_true, reduceIte]
            by_cases hcase :
                (rest.dropWhile fun x => decide (x ≠ '"')) = [] ∨
                  (rest.takeWhile fun x => decide (x ≠ '"')) = []
            · simp only [hcase, if_true, reduceIte]
              refine congrArg _ (ih _ g ?_ ?_) <;> omega
            · simp only [hcase, if_false, reduceIte]
              refine congrArg _ (ih _ g ?_ ?_) <;>
                simp only [List.length_drop] <;> omega
          · simp only [hqc, reduceIte]
            by_cases hdc : c = '$'
            · simp only [hdc, if_true, reduceIte]
              by_cases hcase :
                  (rest.dropWhile fun x => decide (x ≠ '$')) = [] ∨
                    (rest.takeWhile fun x => decide (x ≠ '$')) = []
              · simp only [hcase, if_true, reduceIte]
                refine congrArg _ (ih _ g ?_ ?_) <;> omega
              · simp only [hcase, if_false, reduceIte]
                refine congrArg _ (ih _ g ?_ ?_) <;>
                  simp only [List.length_drop] <;> omega
            · simp only [hdc, reduceIte]
              refine congrArg _ (ih _ g ?_ ?_) <;> omega

theorem tok_skip_space (c : Char) (rest : List Char) (h : pyIsSpaceChar c) :
    tokenize_command (c :: rest) = tokenize_command rest := by
  unfold tokenize_command
  simp only [List.length_cons, tok_go, h, if_true]

theorem tok_quoted (span rest : List Char) (hne : span ≠ [])
    (hq : ∀ ch ∈ span, ch ≠ '"') :
    tokenize_command ('"' :: (span ++ '"' :: rest)) = span :: tokenize_command rest := by
  unfold tokenize_command
  have hsp : pyIsSpaceChar '"' = false := by decide
  have htw : ((span ++ '"' :: rest).takeWhile fun x => decide (x ≠ '"')) = span :=
    takeWhile_append_stop _ _ _ span (fun a ha => by simp [hq a ha]) (by decide)
  have hdw : ((span ++ '"' :: rest).dropWhile fun x => decide (x ≠ '"')) = '"' :: rest :=
    dropWhile_append_stop _ _ _ span (fun a ha => by simp [hq a ha]) (by decide)
  simp only [List.length_cons, tok_go, hsp, Bool.false_eq_true, if_false, reduceIte,
    htw, hdw, List.drop_succ_cons, List.drop_zero, hne, List.cons_ne_nil, or_self,
    if_false]
  refine congrArg _ (tok_go_fuel_irrel _ rest rest.length ?_ le_rfl)
  simp
  omega

theorem tok_dollar (span rest : List Char) (hne : span ≠ [])
    (hq : ∀ ch ∈ span, ch ≠ '$') :
    tokenize_command ('$' :: (span ++ '$' :: rest)) = span :: tokenize_command rest := by
  unfold tokenize_command
  have hsp : pyIsSpaceChar '$' = false := by decide
  have hnq : ¬('$' : Char) = '"' := by decide
  have htw : ((span ++ '$' :: rest).takeWhile fun x => decide (x ≠ '$')) = span :=
    takeWhile_append_stop _ _ _ span (fun a ha => by simp [hq a ha]) (by decide)
  have hdw : ((span ++ '$' :: rest).dropWhile fun x => decide (x ≠ '$')) = '$' :: rest :=
    dropWhile_append_stop _ _ _ span (fun a ha => by simp [hq a ha]) (by decide)
  simp only [List.length_cons, tok_go, hsp, Bool.false_eq_true, if_false, if_neg hnq,
    reduceIte, htw, hdw, List.drop_succ_cons, List.drop_zero, hne, List.cons_ne_nil,
    or_self]
  refine congrArg _ (tok_go_fuel_irrel _ rest rest.length ?_ le_rfl)
  simp
  omega

theorem tok_atom (c : Char) (rest : List Char) (h1 : pyIsSpaceChar c = false)
    (h2 : c ≠ '"') (h3 : c ≠ '$') :
    tokenize_command (c :: rest) =
      (c :: rest.takeWhile fun x => ¬ pyIsSpaceChar x) ::
        tokenize_command (rest.dropWhile fun x => ¬ pyIsSpaceChar x) := by
  unfold tokenize_command
  simp only [List.length_cons, tok_go, h1, Bool.false_eq_true, if_false, h2, h3,
    reduceIte]
  refine congrArg _ (tok_go_fuel_irrel _ _ _ ?_ le_rfl)
  exact le_trans (List.dropWhile_suffix _).length_le (by omega)

/-! ## Claim theorems -/

/-- C1: whenever `add_task`'s `send_time` parses (so no format error is hit)
to a moment at or before the wall clock `now`, i.e. `delay <= 0`, the call
returns the past-schedule error string and leaves the scheduler state — both
the in-memory task list and the log of file writes — unchanged: no task is
appended and no save occurs. -/
theorem add_task_past_rejected (now : DateTime) (st : SchedulerState)
    (thread_id send_time message : String) (display_name : Option String)
    (dt : DateTime) (hparse : pyStrptime send_time = some dt)
    (hpast : delaySeconds dt now ≤ 0) :
    add_task now st thread_id send_time message display_name =
      ("Error: Cannot schedule a message in the past. **Make sure you use 24-hour format.**",
        st) ∧
    (add_task now st thread_id send_time message display_name).2.tasks = st.tasks ∧
    (add_task now st thread_id send_time message display_name).2.writes = st.writes := by
  have h : add_task now st thread_id send_time message display_name =
      ("Error: Cannot schedule a message in the past. **Make sure you use 24-hour format.**",
        st) := by
    simp [add_task, hparse, hpast]
  exact ⟨h, by rw [h], by rw [h]⟩

/-- C1 witness: scheduling one minute in the past is rejected and the store
stays untouched. -/
theorem add_task_past_rejected_witness :
    pyStrptime "2025-10-12 09:59:00" = some ⟨2025, 10, 12, 9, 59, 0⟩ ∧
    delaySeconds ⟨2025, 10, 12, 9, 59, 0⟩ ⟨2025, 10, 12, 10, 0, 0⟩ ≤ 0 ∧
    add_task ⟨2025, 10, 12, 10, 0, 0⟩ ⟨[], []⟩ "thread7" "2025-10-12 09:59:00"
        "hello" none =
      ("Error: Cannot schedule a message in the past. **Make sure you use 24-hour format.**",
        ⟨[], []⟩) :=
  ⟨by decide, by decide,
    (add_task_past_rejected ⟨2025, 10, 12, 10, 0, 0⟩ ⟨[], []⟩ "thread7"
      "2025-10-12 09:59:00" "hello" none ⟨2025, 10, 12, 9, 59, 0⟩
      (by decide) (by decide)).1⟩

/-- C2 counterexample: the chat cancel command is index-free and removes the
LATEST task: on the two-task store `[{t1,"hi"},{t2,"bye"}]` it yields
`[{t1,"hi"}]`, not the `[{t2,"bye"}]` the claim's cancel-index-0 scenario
demands. -/
theorem cancel_latest_not_indexed :
    ((cancel_latest_task
        ⟨[⟨"t1", "2025-01-01 10:00:00", "hi", none⟩,
          ⟨"t2", "2025-01-02 11:00:00", "bye", none⟩], []⟩).2).tasks =
      [⟨"t1", "2025-01-01 10:00:00", "hi", none⟩] ∧
    ((cancel_latest_task
        ⟨[⟨"t1", "2025-01-01 10:00:00", "hi", none⟩,
          ⟨"t2", "2025-01-02 11:00:00", "bye", none⟩], []⟩).2).tasks ≠
      [⟨"t2", "2025-01-02 11:00:00", "bye", none⟩] := by decide

/-- C2 (amended): the cancel operation exposed through the chat's `cancel`
command takes no index and always cancels the most recently scheduled task:
for a non-empty store whose last task occurs only once, it removes exactly
that last task, leaves every other task present in its original relative
order, and persists the shortened list. -/
theorem cancel_latest_task_removes_last (st : SchedulerState) (ts : List Task)
    (t : Task) (hts : st.tasks = ts ++ [t]) (hnot : t ∉ ts) :
    (cancel_latest_task st).1 = "Cancelled task for " ++ t.send_time ∧
    (cancel_latest_task st).2.tasks = ts ∧
    (cancel_latest_task st).2.writes = st.writes ++ [ts] := by
  have hlast : st.tasks.getLast? = some t := by rw [hts]; exact List.getLast?_concat ts
  have hmem : t ∈ st.tasks := by rw [hts]; simp
  have herase : st.tasks.erase t = ts := by
    rw [hts, List.erase_append_right _ hnot]
    simp
  simp [cancel_latest_task, hlast, remove_task, hmem, save_tasks, herase]

/-- C2 witness: cancelling on the two-task store removes the latest task
`{t2,"bye"}` and persists `[{t1,"hi"}]`. -/
theorem cancel_latest_task_removes_last_witness :
    (cancel_latest_task
        ⟨[⟨"t1", "2025-01-01 10:00:00", "hi", none⟩,
          ⟨"t2", "2025-01-02 11:00:00", "bye", none⟩], []⟩).1 =
      "Cancelled task for " ++ "2025-01-02 11:00:00" ∧
    (cancel_latest_task
        ⟨[⟨"t1", "2025-01-01 10:00:00", "hi", none⟩,
          ⟨"t2", "2025-01-02 11:00:00", "bye", none⟩], []⟩).2.tasks =
      [⟨"t1", "2025-01-01 10:00:00", "hi", none⟩] ∧
    (cancel_latest_task
        ⟨[⟨"t1", "2025-01-01 10:00:00", "hi", none⟩,
          ⟨"t2", "2025-01-02 11:00:00", "bye", none⟩], []⟩).2.writes =
      [] ++ [[⟨"t1", "2025-01-01 10:00:00", "hi", none⟩]] :=
  cancel_latest_task_removes_last
    ⟨[⟨"t1", "2025-01-01 10:00:00", "hi", none⟩,
      ⟨"t2", "2025-01-02 11:00:00", "bye", none⟩], []⟩
    [⟨"t1", "2025-01-01 10:00:00", "hi", none⟩]
    ⟨"t2", "2025-01-02 11:00:00", "bye", none⟩ (by decide) (by decide)

/-- C3 counterexample: `execute_task` fires the send action first — while the
task is still in the persisted store — and removes it only afterwards, so the
send IS invoked on a task still present in persistent storage, contradicting
the claimed remove-before-send order. -/
theorem execute_task_sends_while_persisted :
    (execute_task ⟨[⟨"th", "2025-03-01 10:00:00", "ping", none⟩], []⟩
        ⟨"th", "2025-03-01 10:00:00", "ping", none⟩).1 =
      [(SchedAction.send "th" "ping",
          [⟨"th", "2025-03-01 10:00:00", "ping", none⟩]),
        (SchedAction.removeFromStore ⟨"th", "2025-03-01 10:00:00", "ping", none⟩,
          [])] ∧
    (⟨"th", "2025-03-01 10:00:00", "ping", none⟩ : Task) ∈
      [(⟨"th", "2025-03-01 10:00:00", "ping", none⟩ : Task)] := by decide

/-- C3 (amended): when the scheduler fires a due task, the send action is
invoked first, at a moment when the task is still in the persisted store, and
the task record is removed from the store immediately after the send returns
(so a crash mid-send leaves the task persisted — at-least-once, not
at-most-once). -/
theorem execute_task_send_then_remove (st : SchedulerState) (task : Task)
    (hmem : task ∈ st.tasks) :
    (execute_task st task).1 =
      [(SchedAction.send task.thread_id task.message, st.tasks),
        (SchedAction.removeFromStore task, st.tasks.erase task)] ∧
    task ∈ st.tasks ∧
    (execute_task st task).2.tasks = st.tasks.erase task ∧
    (execute_task st task).2.writes = st.writes ++ [st.tasks.erase task] := by
  simp [execute_task, remove_task, hmem, save_tasks]

/-- C3 witness: firing the single stored task sends first with the task still
persisted, then removes it and rewrites the store. -/
theorem execute_task_send_then_remove_witness :
    (execute_task ⟨[⟨"th", "2025-03-01 10:00:00", "pong", none⟩], [[]]⟩
        ⟨"th", "2025-03-01 10:00:00", "pong", none⟩).1 =
      [(SchedAction.send "th" "pong",
          [⟨"th", "2025-03-01 10:00:00", "pong", none⟩]),
        (SchedAction.removeFromStore ⟨"th", "2025-03-01 10:00:00", "pong", none⟩,
          [(⟨"th", "2025-03-01 10:00:00", "pong", none⟩ : Task)].erase
            ⟨"th", "2025-03-01 10:00:00", "pong", none⟩)] ∧
    (⟨"th", "2025-03-01 10:00:00", "pong", none⟩ : Task) ∈
      [(⟨"th", "2025-03-01 10:00:00", "pong", none⟩ : Task)] ∧
    (execute_task ⟨[⟨"th", "2025-03-01 10:00:00", "pong", none⟩], [[]]⟩
        ⟨"th", "2025-03-01 10:00:00", "pong", none⟩).2.tasks =
      [(⟨"th", "2025-03-01 10:00:00", "pong", none⟩ : Task)].erase
        ⟨"th", "2025-03-01 10:00:00", "pong", none⟩ ∧
    (execute_task ⟨[⟨"th", "2025-03-01 10:00:00", "pong", none⟩], [[]]⟩
        ⟨"th", "2025-03-01 10:00:00", "pong", none⟩).2.writes =
      [[]] ++ [[(⟨"th", "2025-03-01 10:00:00", "pong", none⟩ : Task)].erase
        ⟨"th", "2025-03-01 10:00:00", "pong", none⟩] :=
  execute_task_send_then_remove ⟨[⟨"th", "2025-03-01 10:00:00", "pong", none⟩], [[]]⟩
    ⟨"th", "2025-03-01 10:00:00", "pong", none⟩ (by decide)

/-- C5 counterexample: the message-line build is NOT a function of
(messages, width, layout option, color option) alone — with all four fixed,
changing the chat mode (an input the claim's tuple omits) flips the
`is_selected` flag and yields a different DisplayLine sequence. -/
theorem build_message_lines_depends_on_mode :
    build_message_lines ⟨20, 0, ChatMode.CHAT, false, false, fun _ => 0⟩
        [⟨⟨"Bob", "hi"⟩, none, [], false, false⟩] ≠
      build_message_lines ⟨20, 0, ChatMode.REPLY, false, false, fun _ => 0⟩
        [⟨⟨"Bob", "hi"⟩, none, [], false, false⟩] := by decide

/-- C5 (amended): the build is a pure function of (messages, width, layout
option, color option, selection, mode, per-process sender hash); outside the
selection modes (REPLY/UNSEND) the selection index and mode are irrelevant,
so re-running on an unchanged claimed tuple yields identical DisplayLines. -/
theorem build_message_lines_pure (width sel sel' : Nat) (mode mode' : ChatMode)
    (colors compact : Bool) (hashF : String → Nat) (messages : List MessageInfo)
    (h1 : mode ≠ ChatMode.REPLY) (h2 : mode ≠ ChatMode.UNSEND)
    (h1' : mode' ≠ ChatMode.REPLY) (h2' : mode' ≠ ChatMode.UNSEND) :
    build_message_lines ⟨width, sel, mode, colors, compact, hashF⟩ messages =
      build_message_lines ⟨width, sel', mode', colors, compact, hashF⟩ messages := by
  unfold build_message_lines
  congr 1
  apply List.map_congr_left
  intro p _
  have hm : (mode == ChatMode.REPLY || mode == ChatMode.UNSEND) = false := by
    cases mode <;> simp_all
  have hm' : (mode' == ChatMode.REPLY || mode' == ChatMode.UNSEND) = false := by
    cases mode' <;> simp_all
  simp only [message_lines, hm, hm', Bool.and_false]

/-- C5 witness: two runs agreeing on (messages, width, layout, colors) but
with different selection/mode — both outside the selection modes — coincide. -/
theorem build_message_lines_pure_witness :
    build_message_lines ⟨20, 0, ChatMode.CHAT, false, false, fun _ => 0⟩
        [⟨⟨"Bob", "hi"⟩, none, [], false, false⟩] =
      build_message_lines ⟨20, 3, ChatMode.COMMAND, false, false, fun _ => 0⟩
        [⟨⟨"Bob", "hi"⟩, none, [], false, false⟩] :=
  build_message_lines_pure 20 0 3 ChatMode.CHAT ChatMode.COMMAND false false
    (fun _ => 0) [⟨⟨"Bob", "hi"⟩, none, [], false, false⟩]
    (by decide) (by decide) (by decide) (by decide)

/-- C6: for a message body whose words are separated by single spaces
(formally: re-joining its word split with single spaces is the identity),
joining the texts of the wrapped body lines with one space reconstructs the
original body.  The sender/blank padding lives in the separate `sender_text`
field of each `LineInfo`, so the `text` fields are exactly the padded-
stripped line contents. -/
theorem body_lines_reconstruct (msg_idx : Nat) (is_selected : Bool)
    (color_idx : Nat) (sender_text : String) (cw : Int) (body : String)
    (hsp : pyJoin " " (pyWordSplit body) = body) :
    pyJoin " "
        ((message_body_lines msg_idx is_selected color_idx sender_text cw
          (pyWordSplit body)).map fun l => l.text) = body := by
  have hchunks : ∀ l ∈ (wrap_words cw [] 0 true (pyWordSplit body)).map Prod.fst,
      l ≠ [] := by
    intro l hl
    rcases List.mem_map.mp hl with ⟨p, hp, hpl⟩
    rw [← hpl]
    exact wrap_words_fst_ne_nil cw (pyWordSplit body) [] 0 true p hp
  calc pyJoin " " ((message_body_lines msg_idx is_selected color_idx sender_text cw
          (pyWordSplit body)).map fun l => l.text)
      = pyJoin " " (((wrap_words cw [] 0 true (pyWordSplit body)).map Prod.fst).map
          (pyJoin " ")) := by
        unfold message_body_lines wrap_body
        rw [List.map_map, List.map_map]
        rfl
    _ = pyJoin " " ((wrap_words cw [] 0 true (pyWordSplit body)).map Prod.fst).flatten :=
        pyJoin_map_flatten _ _ hchunks
    _ = pyJoin " " (pyWordSplit body) := by
        rw [wrap_words_fst_flatten]
        rfl
    _ = body := hsp

/-- C6 witness: the wrapped lines of "one two three" at content width 8
re-join to the original body. -/
theorem body_lines_reconstruct_witness :
    pyJoin " " (pyWordSplit "one two three") = "one two three" ∧
    pyJoin " "
        ((message_body_lines 0 false 0 "Bob: " 8 (pyWordSplit "one two three")).map
          fun l => l.text) = "one two three" :=
  ⟨by decide, body_lines_reconstruct 0 false 0 "Bob: " 8 "one two three" (by decide)⟩

/-- C7 counterexample: "exactly one body line per message carries the sender
prefix" fails: a message with an empty body produces no body line at all, and
a message whose first word is wider than the content width (width 10, sender
"Bob", body "hello": 5 > 10 - 5 - 1) has `first_line` cleared before the
first flush, so every one of its lines carries the blank padding, none the
sender text. -/
theorem sender_text_line_missing :
    ((message_lines ⟨20, 0, ChatMode.CHAT, false, false, fun _ => 0⟩ 0
        ⟨⟨"Bob", ""⟩, none, [], false, false⟩).filter
        fun l => l.sender_text == "Bob: ").length = 0 ∧
    ((message_lines ⟨10, 0, ChatMode.CHAT, false, false, fun _ => 0⟩ 0
        ⟨⟨"Bob", "hello"⟩, none, [], false, false⟩).filter
        fun l => l.sender_text == "Bob: ").length = 0 ∧
    (message_lines ⟨10, 0, ChatMode.CHAT, false, false, fun _ => 0⟩ 0
        ⟨⟨"Bob", "hello"⟩, none, [], false, false⟩).map (fun l => l.sender_text) =
      ["     ", ""] := by decide

/-- C7 (amended): for every message whose body is non-empty and whose first
word fits in the content width, exactly the first body line carries the
sender text and every continuation line carries a blank padding of width
equal to the sender text; the width=20 / "Bob" / "one two three four five"
scenario holds as claimed. -/
theorem first_body_line_carries_sender :
    (∀ (msg_idx : Nat) (is_selected : Bool) (color_idx : Nat)
        (sender_text : String) (cw : Int) (w : String) (ws : List String),
      (w.length : Int) ≤ cw →
      ∃ fl rest,
        message_body_lines msg_idx is_selected color_idx sender_text cw (w :: ws) =
          fl :: rest ∧
        fl.sender_text = sender_text ∧
        ∀ l ∈ rest, l.sender_text = spaces sender_text.length ∧
          l.sender_text.length = sender_text.length) ∧
    build_message_lines ⟨20, 0, ChatMode.CHAT, false, true, fun _ => 0⟩
        [⟨⟨"Bob", "one two three four five"⟩, none, [], false, false⟩] =
      [{ message_idx := 0, text := "one two three", is_selected := false,
         color_idx := 0, sender_width := 5, sender_text := "Bob: ",
         is_dimmed := false },
       { message_idx := 0, text := "four five", is_selected := false,
         color_idx := 0, sender_width := 5, sender_text := "     ",
         is_dimmed := false }] := by
  constructor
  · intro msg_idx is_selected color_idx sender_text cw w ws hfit
    have hstep : wrap_words cw [] 0 true (w :: ws) =
        wrap_words cw [w] (0 + w.length + 0) true ws := by
      simp only [wrap_words, reduceIte]
      rw [if_pos (by push_cast; omega)]
      rw [List.nil_append]
    rcases wrap_words_first_true cw ws [w] (0 + w.length + 0) (by simp) with
      ⟨c0, rest, heq, hrest⟩
    unfold message_body_lines wrap_body
    rw [hstep, heq, List.map_cons]
    refine ⟨_, _, rfl, by simp, ?_⟩
    intro l hl
    rcases List.mem_map.mp hl with ⟨p, hp, hpl⟩
    have hp2 := hrest p hp
    rw [← hpl]
    simp [hp2, length_spaces]
  · decide

/-- C7 witness: the general part at the scenario's first word "one" (length 3
fits the content width 14 left by "Bob: " in 20 columns). -/
theorem first_body_line_carries_sender_witness :
    ((("one" : String).length : Int) ≤ 14) ∧
    ∃ fl rest,
      message_body_lines 0 false 0 "Bob: " 14
          ("one" :: ["two", "three", "four", "five"]) = fl :: rest ∧
      fl.sender_text = "Bob: " ∧
      ∀ l ∈ rest, l.sender_text = spaces ("Bob: " : String).length ∧
        l.sender_text.length = ("Bob: " : String).length :=
  ⟨by decide,
    first_body_line_carries_sender.1 0 false 0 "Bob: " 14 "one"
      ["two", "three", "four", "five"] (by decide)⟩

/-- C4 counterexample: the pending entry's content is the emoji-processed
text, not the submitted text: submitting "a  b" (double space; the emoji
table's names all carry `:` delimiters, so none matches) stores content
"a b", and no entry with the submitted text exists. -/
theorem optimistic_content_not_submitted_text :
    (handle_chat_message_optimistic ⟨[":smile:"], id, fun _ _ => []⟩ ⟨[], []⟩
        "tmp:1" "a  b").messages =
      [⟨"tmp:1", "You", "a b", true, false⟩] ∧
    ∀ m ∈ (handle_chat_message_optimistic ⟨[":smile:"], id, fun _ _ => []⟩ ⟨[], []⟩
        "tmp:1" "a  b").messages, m.content ≠ "a  b" := by decide

/-- C4 (amended): for every submission with a fresh temporary id, immediately
after the optimistic step the message list holds a `pending = true` entry
carrying the emoji-processed submitted text whose id is tracked in the
pending-id dict; and the failure branch of the background send removes that
entry entirely, restoring exactly the pre-submission state (no message with
the temporary id remains and the id leaves the pending set). -/
theorem optimistic_append_failure_rollback (env : EmojiEnv) (st : ChatUIState)
    (tmp_id text : String)
    (hfm : ∀ m ∈ st.messages, m.id ≠ tmp_id)
    (hfp : ∀ p ∈ st.pending_msgs, p.1 ≠ tmp_id) :
    (∃ pm : ChatMsg,
      (handle_chat_message_optimistic env st tmp_id text).messages =
        st.messages ++ [pm] ∧
      pm.id = tmp_id ∧ pm.pending = true ∧ pm.content = replace_emojis env text ∧
      (handle_chat_message_optimistic env st tmp_id text).pending_msgs =
        st.pending_msgs ++ [(tmp_id, pm)]) ∧
    send_failure_cleanup (handle_chat_message_optimistic env st tmp_id text)
      tmp_id = st := by
  have hany : (st.pending_msgs.any fun p => p.1 = tmp_id) = false := by
    rw [List.any_eq_false]
    intro p hp
    simpa using hfp p hp
  have hdict : pyDictSet st.pending_msgs tmp_id
      ⟨tmp_id, "You", replace_emojis env text, true, false⟩ =
      st.pending_msgs ++ [(tmp_id, ⟨tmp_id, "You", replace_emojis env text, true, false⟩)] := by
    simp [pyDictSet, hany]
  constructor
  · exact ⟨⟨tmp_id, "You", replace_emojis env text, true, false⟩,
      rfl, rfl, rfl, rfl, hdict⟩
  · have hidx : ((st.messages ++
        [(⟨tmp_id, "You", replace_emojis env text, true, false⟩ : ChatMsg)]).findIdx?
          fun m => m.id = tmp_id) = some st.messages.length := by
      apply findIdx_append_singleton
      · intro x hx
        simpa using hfm x hx
      · simp
    have hfilter : (st.pending_msgs.filter fun p => p.1 ≠ tmp_id) = st.pending_msgs :=
      List.filter_eq_self.mpr fun p hp => by simpa using hfp p hp
    show send_failure_cleanup
        ⟨st.messages ++ [⟨tmp_id, "You", replace_emojis env text, true, false⟩],
          pyDictSet st.pending_msgs tmp_id
            ⟨tmp_id, "You", replace_emojis env text, true, false⟩⟩ tmp_id = st
    rw [hdict]
    unfold send_failure_cleanup pyDictDel
    simp only [hidx, eraseIdx_append_length, List.filter_append, hfilter]
    cases st with
    | mk m p => simp

/-- C4 witness: from a one-message state, the optimistic step appends the
pending entry and a failed send restores the original state. -/
theorem optimistic_append_failure_rollback_witness :
    (∃ pm : ChatMsg,
      (handle_chat_message_optimistic ⟨[":smile:"], id, fun _ _ => []⟩
          ⟨[⟨"m1", "Alice", "yo", false, false⟩], []⟩ "tmp:9" "hello").messages =
        [⟨"m1", "Alice", "yo", false, false⟩] ++ [pm] ∧
      pm.id = "tmp:9" ∧ pm.pending = true ∧
      pm.content = replace_emojis ⟨[":smile:"], id, fun _ _ => []⟩ "hello" ∧
      (handle_chat_message_optimistic ⟨[":smile:"], id, fun _ _ => []⟩
          ⟨[⟨"m1", "Alice", "yo", false, false⟩], []⟩ "tmp:9" "hello").pending_msgs =
        [] ++ [("tmp:9", pm)]) ∧
    send_failure_cleanup
      (handle_chat_message_optimistic ⟨[":smile:"], id, fun _ _ => []⟩
        ⟨[⟨"m1", "Alice", "yo", false, false⟩], []⟩ "tmp:9" "hello") "tmp:9" =
      ⟨[⟨"m1", "Alice", "yo", false, false⟩], []⟩ :=
  optimistic_append_failure_rollback ⟨[":smile:"], id, fun _ _ => []⟩
    ⟨[⟨"m1", "Alice", "yo", false, false⟩], []⟩ "tmp:9" "hello"
    (by decide) (by decide)

/-- C8: command tokenization after the prefix uses the three token classes in
precedence order: the schedule example parses to exactly the two long
arguments; a double-quoted span is consumed as one token; a `$`-delimited
span is consumed as one token; any other non-space character starts a maximal
non-whitespace atom; whitespace between tokens is skipped. -/
theorem parse_command_token_classes :
    parse_command "schedule \"2025-01-01 10:00\" \"hello there\"" =
      ParseResult.parsed "schedule" ["2025-01-01 10:00", "hello there"] ∧
    (∀ (span rest : List Char), span ≠ [] → (∀ ch ∈ span, ch ≠ '"') →
      tokenize_command ('"' :: (span ++ '"' :: rest)) =
        span :: tokenize_command rest) ∧
    (∀ (span rest : List Char), span ≠ [] → (∀ ch ∈ span, ch ≠ '$') →
      tokenize_command ('$' :: (span ++ '$' :: rest)) =
        span :: tokenize_command rest) ∧
    (∀ (c : Char) (rest : List Char), pyIsSpaceChar c = false → c ≠ '"' → c ≠ '$' →
      tokenize_command (c :: rest) =
        (c :: rest.takeWhile fun x => ¬ pyIsSpaceChar x) ::
          tokenize_command (rest.dropWhile fun x => ¬ pyIsSpaceChar x)) ∧
    (∀ (c : Char) (rest : List Char), pyIsSpaceChar c →
      tokenize_command (c :: rest) = tokenize_command rest) :=
  ⟨by decide, tok_quoted, tok_dollar, tok_atom, tok_skip_space⟩

/-- C8 witness: the quoted-span clause at a concrete span and remainder. -/
theorem parse_command_token_classes_witness :
    tokenize_command ('"' :: (['h', 'i'] ++ '"' :: [' ', 'x'])) =
      ['h', 'i'] :: tokenize_command [' ', 'x'] :=
  parse_command_token_classes.2.1 ['h', 'i'] [' ', 'x'] (by decide) (by decide)

/-- C9: pressing the submit key with the cursor at the end of the buffer
returns the full buffer, unless the buffer strips to empty, in which case
nothing is returned and the state is untouched (a no-op); pressing it with
the cursor strictly before the end inserts a newline at the cursor, advances
the cursor, and returns nothing. -/
theorem handle_key_submit (isspace isprintable : Nat → Bool) (ib : InputBox)
    (c : Nat) (hc : ib.cursor_pos = some c) :
    (c = ib.buffer.length →
      ((∀ ch ∈ ib.buffer, isspace ch = true) →
        handle_key isspace isprintable ib IBKey.enter = (ib, none)) ∧
      ((∃ ch ∈ ib.buffer, isspace ch = false) →
        (handle_key isspace isprintable ib IBKey.enter).2 = some ib.buffer)) ∧
    (c < ib.buffer.length →
      (handle_key isspace isprintable ib IBKey.enter).1.buffer =
        pyInsert ib.buffer c 10 ∧
      (handle_key isspace isprintable ib IBKey.enter).1.cursor_pos = some (c + 1) ∧
      (handle_key isspace isprintable ib IBKey.enter).2 = none) := by
  constructor
  · intro hend
    have hnotlt : ¬ c < ib.buffer.length := by omega
    constructor
    · intro hall
      have hstrip : pyStrip isspace ib.buffer = [] :=
        (pyStrip_eq_nil_iff _ _).mpr hall
      simp [handle_key, hc, hnotlt, hstrip]
    · rintro ⟨ch, hch, hsp⟩
      have hstrip : ¬ pyStrip isspace ib.buffer = [] := by
        intro h
        have := (pyStrip_eq_nil_iff _ _).mp h ch hch
        simp [this] at hsp
      simp [handle_key, hc, hnotlt, hstrip]
  · intro hlt
    simp [handle_key, hc, hlt, adjust_scroll_buffer, adjust_scroll_cursor]

/-- C9 witness: at-end submit of "hi" returns it; at-end submit of two spaces
is a no-op; mid-buffer submit of "hi" inserts a newline at the cursor. -/
theorem handle_key_submit_witness :
    (handle_key (fun n => n == 32) (fun _ => true)
        ⟨[104, 105], some 2, 0, 20, 5⟩ IBKey.enter).2 = some [104, 105] ∧
    handle_key (fun n => n == 32) (fun _ => true)
        ⟨[32, 32], some 2, 0, 20, 5⟩ IBKey.enter =
      (⟨[32, 32], some 2, 0, 20, 5⟩, none) ∧
    (handle_key (fun n => n == 32) (fun _ => true)
        ⟨[104, 105], some 1, 0, 20, 5⟩ IBKey.enter).1.buffer =
      pyInsert [104, 105] 1 10 :=
  ⟨((handle_key_submit (fun n => n == 32) (fun _ => true)
      ⟨[104, 105], some 2, 0, 20, 5⟩ 2 rfl).1 (by decide)).2
      ⟨104, by decide, by decide⟩,
    ((handle_key_submit (fun n => n == 32) (fun _ => true)
      ⟨[32, 32], some 2, 0, 20, 5⟩ 2 rfl).1 (by decide)).1 (by decide),
    ((handle_key_submit (fun n => n == 32) (fun _ => true)
      ⟨[104, 105], some 1, 0, 20, 5⟩ 1 rfl).2 (by decide)).1⟩

/-- C10: on an empty buffer the HOME branch stores the raw result of
`_get_position_from_rowcol(0, 0)` — which is `None`, since the wrap of the
empty buffer has no rows — into `cursor_pos` without the `None` check the
DOWN and END branches perform, so the cursor leaves the `0 ≤ cursor ≤ length`
range (and the next insertion would raise `TypeError`). -/
theorem home_on_empty_buffer_breaks_cursor :
    handle_key (fun n => n == 32) (fun _ => true) ⟨[], some 0, 0, 20, 5⟩
        IBKey.home =
      (⟨[], none, 0, 20, 5⟩, none) ∧
    get_position_from_rowcol ⟨[], some 0, 0, 20, 5⟩ 0 0 = none := by decide

end InstagramCli
